import Mathlib

/-!
Shallow embedding of `frontend/static/js/main.js` from the
real-time-speech-processor client, together with theorems settling the
spec's claims about it.

The script is a DOM-event-driven program over a handful of mutable
globals (`mediaRecorder`, `audioChunks`, `ws`, `sessionId`, `keywords`)
plus button state.  We embed it as a record `ClientState` and one Lean
function per event handler / browser callback, each mapping a state to a
state.  Asynchronous continuations (the `getUserMedia` resolution, the
`ws.onopen` / `ws.onclose` callbacks, the `setTimeout` reconnection
timer, fetch responses) become separate events whose parameters carry
the environment's choice (granted/denied, clean/abnormal, ok/error).
-/

namespace RTSP

/-- Ready states of a browser WebSocket, named after the
`WebSocket.CONNECTING/OPEN/CLOSING/CLOSED` constants the script
compares against. -/
inductive WsReadyState
  | CONNECTING
  | OPEN
  | CLOSING
  | CLOSED
deriving DecidableEq, Repr

/-- A message sent on the transport: either the JSON control message
`{type: 'set_speaker_type', speaker_type: v}` or one binary audio
chunk (we keep its size, the only attribute the script inspects). -/
inductive OutboundMsg
  | setSpeakerType (value : String)
  | audioFrame (size : Nat)
deriving DecidableEq, Repr

/-- One WebSocket connection object: the session id baked into its URL
(`/ws/audio/${sessionId}/`) at construction time, its ready state, and
the log of messages sent on it. -/
structure WebSocketConn where
  urlSessionId : String
  readyState : WsReadyState
  sent : List OutboundMsg
deriving DecidableEq, Repr

/-- `ws.close()`: moves an open or connecting socket to CLOSING; a
no-op on a socket already closing or closed. -/
def wsCloseMethod (c : WebSocketConn) : WebSocketConn :=
  match c.readyState with
  | .CLOSED => c
  | .CLOSING => c
  | _ => { c with readyState := .CLOSING }

/-- State of the `mediaRecorder` global: `noRecorder` while the
variable is still undefined, otherwise the MediaRecorder state the
script compares against (`recording` vs everything else). -/
inductive RecorderState
  | noRecorder
  | recording
  | inactive
deriving DecidableEq, Repr

/-- One `event.data` blob delivered to `ondataavailable`; the script
only reads its `size`. -/
structure BlobData where
  size : Nat
deriving DecidableEq, Repr

/-- One cached keyword `{id, word, talking_point, is_active}` as
returned by the backend keyword API. -/
structure Keyword where
  id : Int
  word : String
  talkingPoint : String
  active : Bool
deriving DecidableEq, Repr

/-- The script's mutable globals plus the bits of DOM state the claims
mention: the two recording buttons' `disabled` flags, the speaker-type
select's current value, the list of pending `setTimeout` reconnection
delays (in schedule order), and the console log. -/
structure ClientState where
  ws : Option WebSocketConn
  recorder : RecorderState
  sessionId : String
  audioChunks : List BlobData
  speakerType : String
  keywords : List Keyword
  reconnectTimers : List Nat
  startDisabled : Bool
  stopDisabled : Bool
  console : List String
deriving DecidableEq, Repr

/-- The messages sent so far on the current socket (empty when no
socket exists). -/
def sentOf (s : ClientState) : List OutboundMsg :=
  match s.ws with
  | some c => c.sent
  | none => []

/-- `ws && ws.readyState === WebSocket.OPEN`, the guard the script uses
before every `ws.send`. -/
def wsIsOpen (s : ClientState) : Bool :=
  match s.ws with
  | some c => c.readyState = .OPEN
  | none => false

/-- `connectWebSocket()`: builds the URL from the current `sessionId`
and overwrites `ws` with a fresh connecting socket. -/
def connectWebSocket (s : ClientState) : ClientState :=
  { s with
    ws := some { urlSessionId := s.sessionId, readyState := .CONNECTING, sent := [] },
    console := s.console ++ ["Attempting to connect WebSocket"] }

/-- `ws.onopen`: the browser completes the handshake (readyState
becomes OPEN) and the handler immediately announces the current
speaker-type select value as a control message. -/
def wsOnOpen (s : ClientState) : ClientState :=
  match s.ws with
  | none => s
  | some c =>
    { s with
      ws := some { c with
        readyState := .OPEN,
        sent := c.sent ++ [.setSpeakerType s.speakerType] },
      console := s.console ++ ["WebSocket connected successfully"] }

/-- `ws.onclose`: the browser marks the socket CLOSED and the handler
runs; when `event.wasClean` is false it schedules
`setTimeout(connectWebSocket, 3000)`. -/
def wsOnClose (wasClean : Bool) (s : ClientState) : ClientState :=
  let s1 :=
    match s.ws with
    | none => s
    | some c => { s with ws := some { c with readyState := .CLOSED } }
  if wasClean then
    { s1 with console := s1.console ++ ["WebSocket disconnected"] }
  else
    { s1 with
      reconnectTimers := s1.reconnectTimers ++ [3000],
      console := s1.console ++
        ["WebSocket disconnected", "Attempting to reconnect WebSocket..."] }

/-- `ws.onerror`: logs and calls `ws.close()`. -/
def wsOnError (s : ClientState) : ClientState :=
  match s.ws with
  | none => s
  | some c =>
    { s with ws := some (wsCloseMethod c), console := s.console ++ ["WebSocket error"] }

/-- A pending reconnection timer fires: it is removed from the pending
list and runs `connectWebSocket` against the then-current state (in
particular the then-current `sessionId`). -/
def reconnectTimerFires (s : ClientState) : ClientState :=
  match s.reconnectTimers with
  | [] => s
  | _ :: rest => connectWebSocket { s with reconnectTimers := rest }

/-- The synchronous prefix of the `startRecording` click handler: a
fresh `sessionId` is stored and `connectWebSocket()` runs, before
`getUserMedia` is even requested. -/
def startRecordingClick (freshSid : String) (s : ClientState) : ClientState :=
  connectWebSocket { s with sessionId := freshSid }

/-- The `getUserMedia` promise resolves: a MediaRecorder is created on
the stream and started, and the buttons flip to the recording
configuration. -/
def getUserMediaGranted (s : ClientState) : ClientState :=
  { s with
    recorder := .recording,
    startDisabled := true,
    stopDisabled := false,
    console := s.console ++ ["Recording started..."] }

/-- The `getUserMedia` promise rejects (permission denied or no
device): the catch block logs the error and resets the buttons; note
that it neither closes nor clears `ws`. -/
def getUserMediaDenied (s : ClientState) : ClientState :=
  { s with
    startDisabled := false,
    stopDisabled := true,
    console := s.console ++
      ["Microphone Access Error: Could not start recording. Please ensure microphone access is granted."] }

/-- `mediaRecorder.ondataavailable`: a nonempty chunk is pushed onto
`audioChunks`, then sent as a binary frame when the socket is open and
otherwise dropped with a console warning; an empty chunk is only
logged. -/
def onDataAvailable (chunk : BlobData) (s : ClientState) : ClientState :=
  if 0 < chunk.size then
    let s1 := { s with audioChunks := s.audioChunks ++ [chunk] }
    match s1.ws with
    | some c =>
      if c.readyState = .OPEN then
        { s1 with
          ws := some { c with sent := c.sent ++ [.audioFrame chunk.size] },
          console := s1.console ++ ["Sent audio chunk to WebSocket."] }
      else
        { s1 with console := s1.console ++ ["WebSocket not open, could not send audio chunk."] }
    | none =>
      { s1 with console := s1.console ++ ["WebSocket not open, could not send audio chunk."] }
  else
    { s with console := s.console ++ ["ondataavailable event fired, but data size is 0."] }

/-- `mediaRecorder.onstop` (fires after `mediaRecorder.stop()`):
clears `audioChunks` and stops the stream's tracks. -/
def onRecorderStop (s : ClientState) : ClientState :=
  { s with audioChunks := [], console := s.console ++ ["Recording stopped"] }

/-- The `stopRecording` click handler: only when the recorder exists
and is in the `recording` state does it stop the recorder, call
`ws.close()` when a socket exists, and reset the buttons; otherwise it
only logs that it cannot stop. -/
def stopRecordingClick (s : ClientState) : ClientState :=
  if s.recorder = .recording then
    let s1 := { s with recorder := .inactive }
    let s2 :=
      match s1.ws with
      | some c => { s1 with ws := some (wsCloseMethod c) }
      | none => s1
    { s2 with
      startDisabled := false,
      stopDisabled := true,
      console := s2.console ++ ["Recording stopped."] }
  else
    { s with console := s.console ++ ["MediaRecorder not in recording state, cannot stop."] }

/-- The speaker-type select's `change` handler: records the new value
and, whenever the socket is open, sends it as a `set_speaker_type`
control message — with no validation of the value whatsoever. -/
def speakerTypeChange (v : String) (s : ClientState) : ClientState :=
  let s1 := { s with speakerType := v }
  match s1.ws with
  | some c =>
    if c.readyState = .OPEN then
      { s1 with
        ws := some { c with sent := c.sent ++ [.setSpeakerType v] },
        console := s1.console ++ ["Sent speaker type update: " ++ v] }
    else s1
  | none => s1

/-! ### Keyword highlighting

`highlightKeywordsInText` runs, for each cached keyword in order,
`text.replace(new RegExp('(' + kw.word + ')', 'gi'),
'<span class="highlight">$1</span>')`: a global, case-insensitive
replacement that wraps each match (the match text itself, with its
original case, via `$1`).  For the literal (metacharacter-free) words
the claims use, that is a leftmost, non-overlapping, case-insensitive
substring scan; a zero-length pattern matches at every position and
the scan then advances one character, as JS regex replacement does. -/

/-- Case-insensitively strip `word` from the front of `text`,
returning the matched original characters and the remainder. -/
def ciStrip : List Char → List Char → Option (List Char × List Char)
  | [], rest => some ([], rest)
  | _ :: _, [] => none
  | w :: ws, c :: cs =>
    if w.toLower = c.toLower then
      match ciStrip ws cs with
      | some (m, rest) => some (c :: m, rest)
      | none => none
    else none

/-- Wrap one match the way the replacement string
`<span class="highlight">$1</span>` does. -/
def wrapSpan (m : List Char) : List Char :=
  "<span class=\"highlight\">".toList ++ m ++ "</span>".toList

/-- Global case-insensitive replace-and-wrap, fuelled by the input
length (one unit per character consumed; the `0` case is unreachable
when the fuel starts at the text's length). -/
def replaceWrapAux (word : List Char) : Nat → List Char → List Char
  | _, [] =>
    match ciStrip word [] with
    | some (m, _) => wrapSpan m
    | none => []
  | 0, t => t
  | fuel + 1, c :: cs =>
    match ciStrip word (c :: cs) with
    | some (m, rest) =>
      if word.isEmpty then wrapSpan m ++ c :: replaceWrapAux word fuel cs
      else wrapSpan m ++ replaceWrapAux word fuel rest
    | none => c :: replaceWrapAux word fuel cs

/-- `text.replace(new RegExp('(' + word + ')', 'gi'),
'<span class="highlight">$1</span>')` for a literal `word`. -/
def replaceWrapStr (word text : String) : String :=
  ⟨replaceWrapAux word.toList text.toList.length text.toList⟩

/-- `highlightKeywordsInText(text)`: folds the wrap-replacement of each
cached keyword, in cache order, over the text. -/
def highlightKeywordsInText (keywords : List Keyword) (text : String) : String :=
  keywords.foldl (fun acc kw => replaceWrapStr kw.word acc) text

/-- Boolean check that pattern `p` occurs at the head of `s`. -/
def subAt (p s : List Char) : Bool :=
  match p, s with
  | [], _ => true
  | _ :: _, [] => false
  | a :: ps, c :: cs => a = c && subAt ps cs

/-- Boolean substring occurrence check over character lists. -/
def hasSubList (p : List Char) : List Char → Bool
  | [] => subAt p []
  | c :: cs => subAt p (c :: cs) || hasSubList p cs

/-- Boolean substring occurrence check over strings. -/
def hasSubStr (p s : String) : Bool :=
  hasSubList p.toList s.toList

/-! ### Keyword create/delete against the backend store

The `addKeyword` click handler and the per-chip delete handlers mutate
the local `keywords` cache only inside their `response.ok` branches;
both the non-ok branch and the network-error catch branch only log.
The fetch outcome is the environment's choice, passed as a
parameter. -/

/-- Outcome of a `fetch` call: an ok response carrying a decoded value,
a non-ok HTTP response, or a thrown network error. -/
inductive FetchOutcome (α : Type)
  | ok (val : α)
  | httpErr
  | netErr
deriving DecidableEq, Repr

/-- True exactly on the `response.ok` branch. -/
def FetchOutcome.isOk : FetchOutcome α → Bool
  | .ok _ => true
  | .httpErr => false
  | .netErr => false

/-- The `addKeyword` click handler's effect on the cache: nothing
happens for a blank (trimmed-empty) input; otherwise the new keyword
returned by an ok response is pushed, and any failure leaves the cache
alone. -/
def addKeywordClick (word : String) (resp : FetchOutcome Keyword)
    (cache : List Keyword) : List Keyword :=
  if word.trim = "" then cache
  else
    match resp with
    | .ok newKw => cache ++ [newKw]
    | .httpErr => cache
    | .netErr => cache

/-- A delete-button handler's effect on the cache: an ok response
filters out the keyword with the clicked id, and any failure leaves
the cache alone. -/
def deleteKeywordClick (kid : Int) (resp : FetchOutcome Unit)
    (cache : List Keyword) : List Keyword :=
  match resp with
  | .ok _ => cache.filter (fun kw => kw.id ≠ kid)
  | .httpErr => cache
  | .netErr => cache

/-! ### Concrete states used by witnesses and counterexamples -/

/-- A concrete page-load state: no socket, no recorder, the select on
its first option, stop disabled. -/
def initialState : ClientState :=
  { ws := none
    recorder := .noRecorder
    sessionId := "session_init"
    audioChunks := []
    speakerType := "rep"
    keywords := []
    reconnectTimers := []
    startDisabled := false
    stopDisabled := true
    console := [] }

/-- A concrete streaming state: start clicked, microphone granted,
socket open (it has announced the speaker type). -/
def streamingState : ClientState :=
  wsOnOpen (getUserMediaGranted (startRecordingClick "session_live" initialState))

/-- The speaker-type values the spec's enumerated set names. -/
def validSpeakerTypes : List String := ["rep", "prospect"]

/-! ## Theorems settling the claims -/

/-- Claim C8: highlighting with the empty keyword list is the identity
on every input text. -/
theorem claimC8_empty_keywords_identity (T : String) :
    highlightKeywordsInText [] T = T := rfl

/-- Claim C6, counterexample: with the keyword cache
`["cat", "category"]` in that order, the text `"category"` comes out
with only `"cat"` wrapped — the earlier substitution splits the text,
so the later pattern `"category"` finds no match and no wrapped
`"category"` occurs in the output, contrary to the claim that both
keywords end up wrapped. -/
theorem claimC6_counterexample :
    highlightKeywordsInText
        [⟨1, "cat", "", true⟩, ⟨2, "category", "", true⟩] "category"
      = "<span class=\"highlight\">cat</span>egory"
    ∧ hasSubStr "<span class=\"highlight\">category</span>"
        (highlightKeywordsInText
          [⟨1, "cat", "", true⟩, ⟨2, "category", "", true⟩] "category") = false :=
  ⟨rfl, rfl⟩

/-- Claim C6, amended: non-exclusive re-wrapping does occur, but in
the opposite cache order — with keywords `["category", "cat"]` the
text `"category"` yields both wrapped, the later `"cat"` pattern
re-wrapping inside the text already wrapped for `"category"`. -/
theorem claimC6_reversed_order_both_wrapped :
    highlightKeywordsInText
        [⟨2, "category", "", true⟩, ⟨1, "cat", "", true⟩] "category"
      = "<span class=\"highlight\"><span class=\"highlight\">cat</span>egory</span>" :=
  rfl

/-- Claim C9: the highlighting pass does not distinguish original text
from markup it has already inserted — with keywords
`["cat", "span"]` on the input `"cat"` (which contains no occurrence
of `"span"`), the later keyword matches inside the
`<span class="highlight">` wrapper inserted for the earlier one, so
the output wraps marker text that never occurred in the input. -/
theorem claimC9_marker_text_rewrapped :
    hasSubStr "span" "cat" = false
    ∧ highlightKeywordsInText [⟨1, "cat", "", true⟩, ⟨2, "span", "", true⟩] "cat"
        = "<<span class=\"highlight\">span</span> class=\"highlight\">cat</<span class=\"highlight\">span</span>>"
    ∧ hasSubStr "<span class=\"highlight\">span</span>"
        (highlightKeywordsInText [⟨1, "cat", "", true⟩, ⟨2, "span", "", true⟩] "cat")
        = true :=
  ⟨rfl, rfl, rfl⟩

/-- Claim C7: a keyword create or delete whose fetch fails (non-ok
response or network error) leaves the local keyword cache exactly as
it was; only an ok acknowledgement mutates it. -/
theorem claimC7_failed_keyword_ops_leave_cache (cache : List Keyword)
    (word : String) (kid : Int) (ra : FetchOutcome Keyword)
    (rd : FetchOutcome Unit) (ha : ra.isOk = false) (hd : rd.isOk = false) :
    addKeywordClick word ra cache = cache
    ∧ deleteKeywordClick kid rd cache = cache := by
  cases ra <;> cases rd <;>
    simp_all [addKeywordClick, deleteKeywordClick, FetchOutcome.isOk]

/-- Witness for C7 at a concrete cache, word, id and failing
outcomes. -/
theorem claimC7_witness :
    (FetchOutcome.netErr : FetchOutcome Keyword).isOk = false
    ∧ (FetchOutcome.httpErr : FetchOutcome Unit).isOk = false
    ∧ (addKeywordClick "dog" FetchOutcome.netErr [⟨1, "cat", "", true⟩]
        = [⟨1, "cat", "", true⟩]
       ∧ deleteKeywordClick 1 FetchOutcome.httpErr [⟨1, "cat", "", true⟩]
        = [⟨1, "cat", "", true⟩]) :=
  ⟨rfl, rfl,
    claimC7_failed_keyword_ops_leave_cache [⟨1, "cat", "", true⟩] "dog" 1
      FetchOutcome.netErr FetchOutcome.httpErr rfl rfl⟩

/-- Claim C1, counterexample: the start handler connects the WebSocket
before requesting the microphone, and the catch block for a denied
`getUserMedia` neither closes nor clears it — after the failing start
attempt (start click, permission denied, socket handshake completes)
the transport is left OPEN and has already carried the speaker-type
control message, contrary to "resolves to Idle without opening
transport traffic". -/
theorem claimC1_counterexample :
    (wsOnOpen (getUserMediaDenied (startRecordingClick "session_abc" initialState))).ws
      = some { urlSessionId := "session_abc", readyState := .OPEN,
               sent := [.setSpeakerType "rep"] }
    ∧ sentOf (wsOnOpen (getUserMediaDenied (startRecordingClick "session_abc" initialState)))
        ≠ [] :=
  ⟨rfl, by decide⟩

/-- Claim C1, amended: when device access is denied during a start
attempt, the recorder is never started and the buttons return to the
idle configuration, the failure being reported only as a console
diagnostic — but the transport connection opened at the very start of
the attempt is left in place (not closed), and its open handshake
still sends the speaker-type announcement. -/
theorem claimC1_device_denied_leaves_socket_open (s : ClientState) (sid : String) :
    (wsOnOpen (getUserMediaDenied (startRecordingClick sid s))).ws
      = some { urlSessionId := sid, readyState := .OPEN,
               sent := [.setSpeakerType s.speakerType] }
    ∧ (wsOnOpen (getUserMediaDenied (startRecordingClick sid s))).recorder = s.recorder
    ∧ (wsOnOpen (getUserMediaDenied (startRecordingClick sid s))).startDisabled = false
    ∧ (wsOnOpen (getUserMediaDenied (startRecordingClick sid s))).stopDisabled = true := by
  simp [wsOnOpen, getUserMediaDenied, startRecordingClick, connectWebSocket]

/-- Claim C2: an abnormal transport close while streaming appends
exactly one pending reconnection timer with the fixed 3000 ms delay
and preserves the session id, so that (no other event intervening)
the timer's `connectWebSocket` reopens the transport under the same
SessionIdentity; a clean close schedules nothing. -/
theorem claimC2_reconnect_policy (s : ClientState) (c : WebSocketConn)
    (hws : s.ws = some c) (hopen : c.readyState = .OPEN)
    (hrec : s.recorder = .recording) (htimers : s.reconnectTimers = []) :
    (wsOnClose false s).reconnectTimers = s.reconnectTimers ++ [3000]
    ∧ (wsOnClose true s).reconnectTimers = s.reconnectTimers
    ∧ (wsOnClose false s).sessionId = s.sessionId
    ∧ (reconnectTimerFires (wsOnClose false s)).ws
        = some { urlSessionId := s.sessionId, readyState := .CONNECTING, sent := [] } := by
  refine ⟨?_, ?_, ?_, ?_⟩ <;>
    simp [wsOnClose, hws, htimers, reconnectTimerFires, connectWebSocket]

/-- Witness for C2 at the concrete streaming state. -/
theorem claimC2_witness :
    streamingState.ws
      = some { urlSessionId := "session_live", readyState := .OPEN,
               sent := [.setSpeakerType "rep"] }
    ∧ (WebSocketConn.mk "session_live" .OPEN [.setSpeakerType "rep"]).readyState = .OPEN
    ∧ streamingState.recorder = .recording
    ∧ streamingState.reconnectTimers = []
    ∧ ((wsOnClose false streamingState).reconnectTimers
          = streamingState.reconnectTimers ++ [3000]
       ∧ (wsOnClose true streamingState).reconnectTimers = streamingState.reconnectTimers
       ∧ (wsOnClose false streamingState).sessionId = streamingState.sessionId
       ∧ (reconnectTimerFires (wsOnClose false streamingState)).ws
          = some { urlSessionId := streamingState.sessionId,
                   readyState := .CONNECTING, sent := [] }) :=
  ⟨rfl, rfl, rfl, rfl,
    claimC2_reconnect_policy streamingState
      (WebSocketConn.mk "session_live" .OPEN [.setSpeakerType "rep"]) rfl rfl rfl rfl⟩

/-- Claim C3, counterexample: a nonempty capture chunk arriving while
no open transport exists is not forwarded, but it IS stored in the
local `audioChunks` buffer — contradicting "never stored in any local
buffer". -/
theorem claimC3_counterexample :
    wsIsOpen initialState = false
    ∧ (onDataAvailable ⟨5⟩ initialState).audioChunks = [⟨5⟩]
    ∧ sentOf (onDataAvailable ⟨5⟩ initialState) = [] :=
  ⟨rfl, rfl, rfl⟩

/-- Claim C3, amended: a chunk is forwarded as a binary frame exactly
when it is nonempty and the transport is open; an undelivered chunk is
never retried, but every nonempty chunk (delivered or not) is appended
to the local `audioChunks` array (which is never transmitted and is
cleared on recorder stop); the handler is total and leaves the
recorder, timers and session id untouched, so a drop neither crashes
nor blocks the capture loop. -/
theorem claimC3_chunk_forwarding (s : ClientState) (chunk : BlobData) :
    sentOf (onDataAvailable chunk s)
      = sentOf s
        ++ (if 0 < chunk.size ∧ wsIsOpen s = true
            then [.audioFrame chunk.size] else [])
    ∧ (onDataAvailable chunk s).audioChunks
      = s.audioChunks ++ (if 0 < chunk.size then [chunk] else [])
    ∧ (onDataAvailable chunk s).recorder = s.recorder
    ∧ (onDataAvailable chunk s).reconnectTimers = s.reconnectTimers
    ∧ (onDataAvailable chunk s).sessionId = s.sessionId := by
  rcases s with ⟨ws, rec, sid, chunks, sp, kws, timers, sd, st, con⟩
  rcases ws with _ | ⟨u, rs, sent⟩
  · by_cases h : 0 < chunk.size <;>
      simp [onDataAvailable, sentOf, wsIsOpen, h]
  · by_cases h : 0 < chunk.size <;> by_cases hrs : rs = WsReadyState.OPEN <;>
      simp [onDataAvailable, sentOf, wsIsOpen, h, hrs]

/-- Claim C4, counterexample: after an abnormal close while streaming
has scheduled a reconnection timer, an explicit stop-intent leaves the
timer pending and its firing still reopens a connection, so the
scheduled attempt is not superseded; moreover an abnormal close after
a fresh start stacks a second pending timer next to the first, so more
than one reconnection timer can be pending at once. -/
theorem claimC4_counterexample :
    (wsOnClose false streamingState).reconnectTimers = [3000]
    ∧ (stopRecordingClick (wsOnClose false streamingState)).reconnectTimers = [3000]
    ∧ (reconnectTimerFires (stopRecordingClick (wsOnClose false streamingState))).ws
        = some { urlSessionId := "session_live", readyState := .CONNECTING, sent := [] }
    ∧ (wsOnClose false
        (startRecordingClick "session_two" (wsOnClose false streamingState))).reconnectTimers
        = [3000, 3000] :=
  ⟨rfl, rfl, rfl, rfl⟩

/-- Claim C4, amended: the code keeps no handle to the reconnection
timer, so a pending scheduled attempt is never cancelled: stop-intents,
fresh start-intents and device denials all leave the pending-timer
list untouched, and a pending timer always fires, reopening the
transport with whatever `sessionId` is current at fire time; nothing
bounds the number of simultaneously pending timers. -/
theorem claimC4_timer_never_cancelled (s : ClientState) (sid : String)
    (h : s.reconnectTimers ≠ []) :
    (stopRecordingClick s).reconnectTimers = s.reconnectTimers
    ∧ (startRecordingClick sid s).reconnectTimers = s.reconnectTimers
    ∧ (getUserMediaDenied s).reconnectTimers = s.reconnectTimers
    ∧ (reconnectTimerFires s).ws
        = some { urlSessionId := s.sessionId, readyState := .CONNECTING, sent := [] } := by
  refine ⟨?_, ?_, ?_, ?_⟩
  · by_cases hr : s.recorder = RecorderState.recording
    · rcases hw : s.ws with _ | c <;> simp [stopRecordingClick, hr, hw]
    · simp [stopRecordingClick, hr]
  · simp [startRecordingClick, connectWebSocket]
  · simp [getUserMediaDenied]
  · rcases ht : s.reconnectTimers with _ | ⟨d, rest⟩
    · exact absurd ht h
    · simp [reconnectTimerFires, ht, connectWebSocket]

/-- Witness for C4 at the concrete post-abnormal-close streaming
state. -/
theorem claimC4_witness :
    (wsOnClose false streamingState).reconnectTimers ≠ []
    ∧ ((stopRecordingClick (wsOnClose false streamingState)).reconnectTimers
          = (wsOnClose false streamingState).reconnectTimers
       ∧ (startRecordingClick "session_two" (wsOnClose false streamingState)).reconnectTimers
          = (wsOnClose false streamingState).reconnectTimers
       ∧ (getUserMediaDenied (wsOnClose false streamingState)).reconnectTimers
          = (wsOnClose false streamingState).reconnectTimers
       ∧ (reconnectTimerFires (wsOnClose false streamingState)).ws
          = some { urlSessionId := (wsOnClose false streamingState).sessionId,
                   readyState := .CONNECTING, sent := [] }) :=
  ⟨by decide,
    claimC4_timer_never_cancelled (wsOnClose false streamingState) "session_two" (by decide)⟩

/-- Claim C5, counterexample: the speaker-type change handler performs
no validation — changing to a value outside the enumerated set while
the transport is open sends that very value as a `set_speaker_type`
control message and updates the recorded select value, instead of
failing with `InvalidSpeakerType` and sending nothing. -/
theorem claimC5_counterexample :
    validSpeakerTypes.contains "alien" = false
    ∧ sentOf (speakerTypeChange "alien" streamingState)
        = sentOf streamingState ++ [.setSpeakerType "alien"]
    ∧ (speakerTypeChange "alien" streamingState).speakerType = "alien" :=
  ⟨rfl, rfl, rfl⟩

/-- Claim C5, amended: the change handler validates nothing: it always
records the new select value, sends it as a `set_speaker_type` control
message exactly when the transport is open, and otherwise has no
transport effect; no `InvalidSpeakerType` failure exists anywhere in
the handler. -/
theorem claimC5_change_handler_sends_unvalidated (s : ClientState) (v : String) :
    (speakerTypeChange v s).speakerType = v
    ∧ sentOf (speakerTypeChange v s)
      = sentOf s ++ (if wsIsOpen s = true then [.setSpeakerType v] else [])
    ∧ (speakerTypeChange v s).recorder = s.recorder
    ∧ (speakerTypeChange v s).reconnectTimers = s.reconnectTimers := by
  rcases s with ⟨ws, rec, sid, chunks, sp, kws, timers, sd, st, con⟩
  rcases ws with _ | ⟨u, rs, sent⟩
  · simp [speakerTypeChange, sentOf, wsIsOpen]
  · by_cases hrs : rs = WsReadyState.OPEN <;>
      simp [speakerTypeChange, sentOf, wsIsOpen, hrs]

/-- Claim C10: a stop click while the recorder is absent or not in the
`recording` state changes nothing but the console log — in particular
any existing transport connection (such as one opened by a start
attempt whose device access was denied) is left exactly as it was,
not closed. -/
theorem claimC10_stop_when_not_recording (s : ClientState)
    (h : s.recorder ≠ RecorderState.recording) :
    stopRecordingClick s
      = { s with console := s.console
            ++ ["MediaRecorder not in recording state, cannot stop."] } := by
  unfold stopRecordingClick
  simp [h]

/-- Witness for C10: a stop click on the initial (never-recording)
state. -/
theorem claimC10_witness :
    initialState.recorder ≠ RecorderState.recording
    ∧ stopRecordingClick initialState
        = { initialState with console := initialState.console
              ++ ["MediaRecorder not in recording state, cannot stop."] } :=
  ⟨by decide, claimC10_stop_when_not_recording initialState (by decide)⟩

end RTSP
